import Mathlib

/-!
Verification of `src/services/llama/generation.py` (class `TextGenerator`).

The Python module is embedded shallowly:

* JSON values (`json.dumps`/`response.json()` results) become the inductive
  type `JValue`; `dumps` mirrors `json.dumps(..., ensure_ascii=False)` with
  Python's default separators and escape table.
* The mutable part of a `TextGenerator` instance — the `_session` attribute —
  becomes `GenState`.  aiohttp client sessions are identified by the order of
  their creation (`nextId`); `closed` records which of them have been closed,
  so that "the instance replaced its reference" and "the session object was
  closed" stay distinguishable, exactly as they are at runtime.
* The network is an explicit parameter `HttpResult`: either a response
  (status, body text, parsed JSON or a parse failure) or a raised exception.
  Calling `post` on a closed aiohttp session raises
  `RuntimeError: Session is closed` before any request goes out; the embedding
  reproduces that branch.
* `generate_text` returns a `GenOutcome`: the returned Python value, the new
  session state, the log lines emitted, and the payload handed to the HTTP
  layer (if any).  The `try/except Exception` of the source makes the function
  total; exception message text (`str(e)`) is abstracted as a plain string.
-/

namespace AssistentBot

/-- JSON values, the image of Python objects under `json.dumps` /
`response.json()`.  Numbers are modelled as integers (no float appears in the
module's own data). -/
inductive JValue where
  | null : JValue
  | bool (b : Bool) : JValue
  | num (n : Int) : JValue
  | str (s : String) : JValue
  | arr (elems : List JValue) : JValue
  | obj (fields : List (String × JValue)) : JValue
deriving Repr

/-- Lowercase hexadecimal digit, as produced by Python's `'\\u%04x'`
formatting in `json.encoder`. -/
def hexDigit (n : Nat) : Char :=
  if n < 10 then Char.ofNat (48 + n) else Char.ofNat (87 + n)

/-- Escape of a single character inside a JSON string literal, following
Python's `json` encoder with `ensure_ascii=False`: only the backslash, the
double quote and control characters below 0x20 are escaped; every other
character — in particular every non-ASCII character — is emitted literally. -/
def escChar (c : Char) : String :=
  if c = '"' then "\\\""
  else if c = '\\' then "\\\\"
  else if c = '\n' then "\\n"
  else if c = '\r' then "\\r"
  else if c = '\t' then "\\t"
  else if c.val.toNat = 8 then "\\b"
  else if c.val.toNat = 12 then "\\f"
  else if c.val.toNat < 32 then
    "\\u00" ++ String.singleton (hexDigit (c.val.toNat / 16))
      ++ String.singleton (hexDigit (c.val.toNat % 16))
  else String.singleton c

/-- Escape every character of a string for inclusion in a JSON string
literal. -/
def escapeString (s : String) : String :=
  String.join (s.data.map escChar)

mutual

/-- Embedding of `json.dumps(v, ensure_ascii=False)` with Python's default
separators `", "` and `": "` (array elements and object entries joined by
`", "`, keys and values by `": "`, keys escaped like any other string). -/
def dumps : JValue → String
  | JValue.null => "null"
  | JValue.bool true => "true"
  | JValue.bool false => "false"
  | JValue.num n => toString n
  | JValue.str s => "\"" ++ escapeString s ++ "\""
  | JValue.arr xs => "[" ++ dumpsArr xs ++ "]"
  | JValue.obj kvs => "\x7b" ++ dumpsObj kvs ++ "\x7d"

def dumpsArr : List JValue → String
  | [] => ""
  | [x] => dumps x
  | x :: y :: xs => dumps x ++ ", " ++ dumpsArr (y :: xs)

def dumpsObj : List (String × JValue) → String
  | [] => ""
  | [(k, v)] => "\"" ++ escapeString k ++ "\": " ++ dumps v
  | (k, v) :: q :: kvs =>
      "\"" ++ escapeString k ++ "\": " ++ dumps v ++ ", " ++ dumpsObj (q :: kvs)

end

/-- Check whether a `JValue` is a JSON string (i.e. whether the corresponding
Python object is a `str`). -/
def JValue.isStr : JValue → Bool
  | JValue.str _ => true
  | _ => false

/-- The `config.services` record read by `TextGenerator.__init__`:
`ai_api` (endpoint URL), `ai_key` (bearer credential), `ai_model`
(model identifier). -/
structure Config where
  ai_api : String
  ai_key : String
  ai_model : String

/-- The immutable attributes set by `TextGenerator.__init__`: `self.url`,
`self.headers` and `self.model`.  The mutable `self._session` attribute is
modelled separately by `GenState`. -/
structure TextGenerator where
  url : String
  headers : List (String × String)
  model : String

/-- `TextGenerator.__init__`: reads the three configuration values and builds
the fixed header set.  No network activity. -/
def TextGenerator.mkFromConfig (cfg : Config) : TextGenerator :=
  { url := cfg.ai_api
    headers :=
      [("Content-Type", "application/json"),
       ("Authorization", "Bearer " ++ cfg.ai_key)]
    model := cfg.ai_model }

/-- The triple-quoted instruction template of `_get_system_prompt`, character
for character (including its leading newline, indentation, the two trailing
spaces after the report header line, and the trailing indentation before the
closing quotes). -/
def systemPromptTemplate : String :=
  "
            Ты бот-ассистент для работы с товарами.
            
            ВАЖНО: Ты должен ВСЕГДА использовать точные значения из предоставленных данных.
            НЕ ПРИДУМЫВАЙ значения, которых нет в данных.
            НЕ ПИШИ \"Не указано\" если значение есть в данных.
            
            Инструкции по обработке данных:
            1. Проанализируй предоставленные данные о товаре (они в формате JSON)
            2. Используй ТОЧНО те значения, которые есть в данных
            3. Для цен используй следующие поля:
               - \"Цена\" для базовой цены
               - \"Цена с НДС\" для цены с НДС
               - \"РРЦ\" для рекомендованной розничной цены
            4. Если пользователь спрашивает о цене, укажи все доступные цены из данных
            5. Если значение в данных равно null, None или пустой строке, то пиши \"Не указано\"
            
            Сначала дай прямой ответ на вопрос пользователя, затем выведи полную информацию о товаре:
            
            Шаблон ответа:  
                ### 1. Товар:
                    - Артикул: [значение из поля \"Артикул\"]
                    - Наименование: [значение из поля \"Наименование\"]
                    - Описание: [значение из поля \"Описание\"]

                ### 2. Цены:
                    - Базовая цена: [значение из поля \"Цена\"]
                    - Цена с НДС: [значение из поля \"Цена с НДС\"]
                    - РРЦ: [значение из поля \"РРЦ\"]
                    - Акции/Скидки: Не указаны

                ### 3. Характеристики:
                    - Ед. изм.: [значение из поля \"Ед. изм.\"]
                    - Кол-во листов: [значение из поля \"Кол-во листов\"]
                    - Формат: [значение из поля \"Формат\"]
                    - Класс: [значение из поля \"Класс\"]
                    - Материал: [значение из поля \"Материал\"]
                    - Карты, стенды, таблицы: [значение из поля \"Карты, стенды, таблицы\"]

                ### 4. Наличие:
                    - Статус: [Требует уточнения]

                ### 5. Рекомендации:
                    Похожие товары:
                        - (Артикул 1: [значение 1]), [Название 1], цена 1: [значение 1], преимущество 1: [описание 1]
                        - (Артикул 2: [значение 2]), [Название 2], цена 2: [значение 2], преимущество 2: [описание 2]
            "

/-- `TextGenerator._get_system_prompt`: the fixed template followed by the
f-string `\" Вот данные для анализа (в формате JSON): \" + result_data`. -/
def get_system_prompt (result_data : String) : String :=
  systemPromptTemplate ++ (" Вот данные для анализа (в формате JSON): " ++ result_data)

/-- `TextGenerator._prepare_payload`: the dict literal sent as the request
body, with the two-message `messages` list. -/
def TextGenerator.prepare_payload (g : TextGenerator) (query result_data : String) : JValue :=
  JValue.obj
    [("model", JValue.str g.model),
     ("messages", JValue.arr
        [JValue.obj
           [("role", JValue.str "system"),
            ("content", JValue.str (get_system_prompt result_data))],
         JValue.obj
           [("role", JValue.str "user"),
            ("content", JValue.str ("Запрос: " ++ query ++ "."))]])]

/-- The `result_data` argument of `generate_text` as the caller passes it:
either a Python `str`, or a non-string JSON-serializable value. -/
inductive RData where
  | ofString (s : String) : RData
  | ofValue (v : JValue) : RData

/-- Lines 67–68 of `generate_text`: `if not isinstance(result_data, str):
result_data = json.dumps(result_data, ensure_ascii=False)`. -/
def normalize : RData → String
  | RData.ofString s => s
  | RData.ofValue v => dumps v

/-- The mutable state of a `TextGenerator` instance together with the aiohttp
sessions it has created.  `session` is `self._session`, holding the id of the
referenced `ClientSession` (ids are handed out in creation order, so the
sessions created so far are `0, …, nextId - 1`); `closed` lists the ids whose
`close()` coroutine has been awaited.  A `ClientSession` object is truthy in
Python whether open or closed, so `if self._session:` tests only `Option.isSome`
here. -/
structure GenState where
  session : Option Nat
  nextId : Nat
  closed : List Nat
deriving Repr, DecidableEq

/-- The state of a freshly constructed instance: `self._session = None`, no
session created yet. -/
def GenState.initial : GenState :=
  { session := none, nextId := 0, closed := [] }

/-- `TextGenerator.__aenter__`: `self._session = aiohttp.ClientSession()` —
unconditionally creates a new session and overwrites the reference (without
closing any session the reference previously held). -/
def GenState.aenter (st : GenState) : GenState :=
  { session := some st.nextId, nextId := st.nextId + 1, closed := st.closed }

/-- `TextGenerator.__aexit__`: `if self._session: await self._session.close()`
— closes the referenced session but leaves `self._session` pointing at it. -/
def GenState.aexit (st : GenState) : GenState :=
  match st.session with
  | some s => { st with closed := s :: st.closed }
  | none => st

/-- `TextGenerator.close`: `if self._session: await self._session.close();
self._session = None` — closes the referenced session and clears the
reference; a no-op when the reference is absent.  Total: neither branch can
raise. -/
def GenState.close (st : GenState) : GenState :=
  match st.session with
  | some s => { session := none, nextId := st.nextId, closed := s :: st.closed }
  | none => st

/-- Lines 76–77 of `generate_text`: `if not self._session: self._session =
aiohttp.ClientSession()`.  Returns the id of the session the subsequent
`post` call runs on, together with the updated state. -/
def lazySession (st : GenState) : Nat × GenState :=
  match st.session with
  | some s => (s, st)
  | none => (st.nextId, { session := some st.nextId, nextId := st.nextId + 1, closed := st.closed })

/-- One log line, tagged with its level. -/
inductive LogEntry where
  | info (msg : String) : LogEntry
  | debug (msg : String) : LogEntry
  | error (msg : String) : LogEntry
deriving Repr, DecidableEq

/-- Behaviour of the network for one `session.post` call: either a response —
status, the text `await response.text()` would yield, and the outcome of
`await response.json()` (`Except.error` models a raised parse error) — or an
exception raised by the transmission itself (connection failure, timeout, …),
carrying its `str(e)` message. -/
inductive HttpResult where
  | response (status : Nat) (text : String) (json : Except String JValue) : HttpResult
  | raise (msg : String) : HttpResult

/-- Everything observable about one `generate_text` call: the value returned
to the caller (a `JValue`, because Python returns whatever
`resp_data['choices'][0]['message']['content']` holds), the session state
afterwards, the log lines emitted, and the payload handed to `session.post`
(`none` when `post` raised `Session is closed` before any request went out). -/
structure GenOutcome where
  ret : JValue
  st : GenState
  logs : List LogEntry
  sent : Option JValue
deriving Repr

/-- The fixed fallback string returned on every failure path. -/
def fallback : String :=
  "Извините, произошла ошибка при генерации ответа."

/-- The message of the error log line of the non-200 branch:
`f"Ошибка API: \x7bresponse.status\x7d, \x7berror_text\x7d"`. -/
def apiErrorMsg (status : Nat) (text : String) : String :=
  "Ошибка API: " ++ toString status ++ ", " ++ text

/-- The message of the error log line of the `except` branch:
`f"Ошибка при генерации текста: \x7bstr(e)\x7d"`. -/
def genErrorMsg (e : String) : String :=
  "Ошибка при генерации текста: " ++ e

/-- Python subscripting `j[k]` for a string key: a value on a dict that has
the key, `KeyError` on a dict that lacks it, `TypeError` on anything else.
Duplicate keys cannot survive `json.loads`, whose dicts keep the last
occurrence; lookup therefore takes the last match. -/
def jGet (j : JValue) (k : String) : Except String JValue :=
  match j with
  | JValue.obj fields =>
      match fields.foldl (fun acc p => if p.fst = k then some p.snd else acc) none with
      | some v => Except.ok v
      | none => Except.error ("KeyError: " ++ k)
  | _ => Except.error "TypeError: subscripted value is not a dict"

/-- Python subscripting `j[0]`: the head of a list, `IndexError` on an empty
list, `TypeError` on anything that is not a list. -/
def jIndex0 (j : JValue) : Except String JValue :=
  match j with
  | JValue.arr (x :: _) => Except.ok x
  | JValue.arr [] => Except.error "IndexError: list index out of range"
  | _ => Except.error "TypeError: subscripted value is not a list"

/-- Line 86 of `generate_text`:
`resp_data['choices'][0]['message']['content']`. -/
def getContent (j : JValue) : Except String JValue := do
  let choices ← jGet j "choices"
  let first ← jIndex0 choices
  let message ← jGet first "message"
  jGet message "content"

/-- `TextGenerator.generate_text(query, result_data)`, with the session state
and the network's behaviour made explicit.  The whole body sits inside
`try: … except Exception as e: logger.error(…); return <fallback>`, so the
function is total.  Step by step: normalize `result_data`; emit the info and
debug log lines; build the payload; lazily create a session if the reference
is absent; `post` — which raises `Session is closed` if the referenced
session has been closed — then branch on the status, parse the JSON body and
extract `choices[0].message.content`. -/
def TextGenerator.generate_text (g : TextGenerator) (st : GenState)
    (query : String) (result_data : RData) (env : HttpResult) : GenOutcome :=
  let data := normalize result_data
  let logs0 : List LogEntry :=
    [LogEntry.info ("Отправка запроса к API: " ++ g.url),
     LogEntry.debug ("Запрос: " ++ query),
     LogEntry.debug ("Данные: " ++ data)]
  let payload := g.prepare_payload query data
  let sp := lazySession st
  let sid := sp.1
  let st1 := sp.2
  if sid ∈ st1.closed then
    { ret := JValue.str fallback, st := st1,
      logs := logs0 ++ [LogEntry.error (genErrorMsg "Session is closed")],
      sent := none }
  else
    match env with
    | HttpResult.raise e =>
        { ret := JValue.str fallback, st := st1,
          logs := logs0 ++ [LogEntry.error (genErrorMsg e)],
          sent := some payload }
    | HttpResult.response status text json =>
        if status ≠ 200 then
          { ret := JValue.str fallback, st := st1,
            logs := logs0 ++ [LogEntry.error (apiErrorMsg status text)],
            sent := some payload }
        else
          match json with
          | Except.error e =>
              { ret := JValue.str fallback, st := st1,
                logs := logs0 ++ [LogEntry.error (genErrorMsg e)],
                sent := some payload }
          | Except.ok j =>
              match getContent j with
              | Except.error e =>
                  { ret := JValue.str fallback, st := st1,
                    logs := logs0 ++ [LogEntry.error (genErrorMsg e)],
                    sent := some payload }
              | Except.ok v =>
                  { ret := v, st := st1, logs := logs0, sent := some payload }

/-- The operations a sequential caller can perform on one instance, for
reasoning about session lifecycles across calls. -/
inductive Op where
  | aenter : Op
  | aexit : Op
  | close : Op
  | gen (query : String) (result_data : RData) (env : HttpResult) : Op

/-- Effect of one operation on the session state. -/
def step (g : TextGenerator) (st : GenState) : Op → GenState
  | Op.aenter => st.aenter
  | Op.aexit => st.aexit
  | Op.close => st.close
  | Op.gen q rd env => (g.generate_text st q rd env).st

/-- Run a sequence of operations from a state. -/
def run (g : TextGenerator) (st : GenState) : List Op → GenState
  | [] => st
  | op :: ops => run g (step g st op) ops

/-- Number of live (created and not closed) aiohttp sessions attributable to
the instance. -/
def GenState.openCount (st : GenState) : Nat :=
  ((List.range st.nextId).filter (fun i => i ∉ st.closed)).length

/-- Keys of a JSON object, in order (empty for non-objects). -/
def jKeys : JValue → List String
  | JValue.obj fields => fields.map Prod.fst
  | _ => []

/-- Content of the first (system) message of a payload:
`payload['messages'][0]['content']`. -/
def systemContent (p : JValue) : Except String JValue := do
  let ms ← jGet p "messages"
  let m0 ← jIndex0 ms
  jGet m0 "content"

/-- Invariant tying the session reference to the set of live sessions: every
session that has been created and not closed is the one `self._session`
refers to.  It rules out leaked open sessions. -/
def sessionInv (st : GenState) : Prop :=
  ∀ i : Nat, i < st.nextId → i ∉ st.closed → st.session = some i

/-- Concrete instance used to evaluate the embedding at specific inputs. -/
def gW : TextGenerator :=
  TextGenerator.mkFromConfig ⟨"http://api.example/v1", "KEY", "model-1"⟩

/-- The success-shaped response body
`\x7b"choices": [\x7b"message": \x7b"content": "Hello"\x7d\x7d]\x7d`. -/
def helloJson : JValue :=
  JValue.obj
    [("choices", JValue.arr
      [JValue.obj [("message", JValue.obj [("content", JValue.str "Hello")])]])]

/-- A response body whose `choices[0].message.content` is the JSON number 42
rather than a string. -/
def json42 : JValue :=
  JValue.obj
    [("choices", JValue.arr
      [JValue.obj [("message", JValue.obj [("content", JValue.num 42)])]])]

/-- A concrete operation sequence that never enters the scoped-resource
block: one request, an explicit close, another request. -/
def opsW : List Op :=
  [Op.gen "q1" (RData.ofString "d1") (HttpResult.raise "conn"),
   Op.close,
   Op.gen "q2" (RData.ofValue (JValue.num 3)) (HttpResult.response 200 "" (Except.ok helloJson))]

/-- When a session is referenced, the lazy-creation check of lines 76–77 is a
no-op. -/
lemma lazySession_of_some {st : GenState} {s : Nat} (h : st.session = some s) :
    lazySession st = (s, st) := by
  unfold lazySession
  rw [h]

/-- The only state change `generate_text` ever performs is the lazy session
creation of lines 76–77; neither failure branch nor the success branch
touches the session afterwards. -/
lemma generate_text_st (g : TextGenerator) (st : GenState) (q : String)
    (rd : RData) (env : HttpResult) :
    (g.generate_text st q rd env).st = (lazySession st).2 := by
  simp only [TextGenerator.generate_text]
  repeat' split
  all_goals rfl

/-- `generate_text` hands the HTTP layer either nothing (the `post` call on a
closed session raises first) or exactly the payload built by
`_prepare_payload` from the normalized data. -/
lemma generate_text_sent (g : TextGenerator) (st : GenState) (q : String)
    (rd : RData) (env : HttpResult) :
    (g.generate_text st q rd env).sent = none
    ∨ (g.generate_text st q rd env).sent = some (g.prepare_payload q (normalize rd)) := by
  simp only [TextGenerator.generate_text]
  repeat' split
  all_goals first
    | exact Or.inl rfl
    | exact Or.inr rfl

/-- The system prompt is the fixed text followed by the data: the data is a
trailing segment. -/
lemma get_system_prompt_trailing (s : String) :
    get_system_prompt s
      = (systemPromptTemplate ++ " Вот данные для анализа (в формате JSON): ") ++ s := by
  unfold get_system_prompt
  rw [String.append_assoc]

/-- The JSON string escaper leaves every non-ASCII character (code point
at least 0x80) unchanged. -/
lemma escChar_nonascii (c : Char) (hc : 128 ≤ c.val.toNat) :
    escChar c = String.singleton c := by
  have h1 : ¬(c = '"') := by rintro rfl; revert hc; decide
  have h2 : ¬(c = '\\') := by rintro rfl; revert hc; decide
  have h3 : ¬(c = '\n') := by rintro rfl; revert hc; decide
  have h4 : ¬(c = '\r') := by rintro rfl; revert hc; decide
  have h5 : ¬(c = '\t') := by rintro rfl; revert hc; decide
  have h6 : ¬(c.val.toNat = 8) := by omega
  have h7 : ¬(c.val.toNat = 12) := by omega
  have h8 : ¬(c.val.toNat < 32) := by omega
  simp [escChar, h1, h2, h3, h4, h5, h6, h7, h8]

/-- The initial state satisfies the no-leak invariant (no session exists). -/
lemma sessionInv_initial : sessionInv GenState.initial := by
  intro i hi
  exact absurd hi (by simp [GenState.initial])

/-- Entering the scope from the initial state satisfies the no-leak
invariant: exactly the referenced session exists. -/
lemma sessionInv_aenter_initial : sessionInv GenState.initial.aenter := by
  intro i hi _
  have : i = 0 := by
    simpa [GenState.initial, GenState.aenter] using Nat.lt_one_iff.mp (by simpa [GenState.initial, GenState.aenter] using hi)
  simp [GenState.initial, GenState.aenter, this]

/-- Under the no-leak invariant, at most one live session exists. -/
lemma sessionInv_openCount {st : GenState} (h : sessionInv st) : st.openCount ≤ 1 := by
  unfold GenState.openCount
  have hmem : ∀ i ∈ (List.range st.nextId).filter (fun i => decide (i ∉ st.closed)),
      st.session = some i := by
    intro i hi
    have h1 := (List.mem_filter.mp hi).1
    have h2 := (List.mem_filter.mp hi).2
    exact h i (List.mem_range.mp h1) (of_decide_eq_true h2)
  have hnd : ((List.range st.nextId).filter (fun i => decide (i ∉ st.closed))).Nodup :=
    (List.nodup_range st.nextId).filter _
  rcases hl : (List.range st.nextId).filter (fun i => decide (i ∉ st.closed)) with _ | ⟨a, _ | ⟨b, t⟩⟩
  · simp
  · simp
  · exfalso
    have ha : st.session = some a := hmem a (by rw [hl]; exact List.mem_cons_self _ _)
    have hb : st.session = some b := hmem b (by rw [hl]; exact List.mem_cons_of_mem _ (List.mem_cons_self _ _))
    have hab : a = b := by
      have := ha.symm.trans hb
      exact Option.some.inj this
    rw [hl] at hnd
    exact (List.nodup_cons.mp hnd).1 (hab ▸ List.mem_cons_self _ _)

/-- Every operation other than `__aenter__` preserves the no-leak
invariant. -/
lemma sessionInv_step (g : TextGenerator) (st : GenState) (op : Op)
    (hop : op ≠ Op.aenter) (h : sessionInv st) : sessionInv (step g st op) := by
  cases op with
  | aenter => exact absurd rfl hop
  | aexit =>
    cases hs : st.session with
    | none => simpa [step, GenState.aexit, hs] using h
    | some s =>
      intro i hi hic
      simp only [step, GenState.aexit, hs] at hi hic ⊢
      have h2 : i ∉ st.closed := fun hmem => hic (List.mem_cons_of_mem _ hmem)
      exact hs.symm.trans (h i hi h2)
  | close =>
    cases hs : st.session with
    | none => simpa [step, GenState.close, hs] using h
    | some s =>
      intro i hi hic
      simp only [step, GenState.close, hs] at hi hic ⊢
      have h1 : i ≠ s := fun he => hic (he ▸ List.mem_cons_self _ _)
      have h2 : i ∉ st.closed := fun hmem => hic (List.mem_cons_of_mem _ hmem)
      have := h i hi h2
      rw [hs] at this
      exact absurd (Option.some.inj this).symm h1
  | gen q rd env =>
    have hst : step g st (Op.gen q rd env) = (lazySession st).2 :=
      generate_text_st g st q rd env
    rw [hst]
    cases hs : st.session with
    | some s => rw [lazySession_of_some hs]; exact h
    | none =>
      unfold lazySession
      rw [hs]
      intro i hi hic
      simp only at hi hic ⊢
      rcases Nat.lt_succ_iff_lt_or_eq.mp hi with hlt | heq
      · have := h i hlt hic
        rw [hs] at this
        exact absurd this (by simp)
      · simp [heq]

/-- The no-leak invariant is preserved along any trace that never re-enters
the scope. -/
lemma sessionInv_run (g : TextGenerator) (st : GenState) (ops : List Op)
    (hops : ∀ op ∈ ops, op ≠ Op.aenter) (h : sessionInv st) :
    sessionInv (run g st ops) := by
  induction ops generalizing st with
  | nil => exact h
  | cons op rest ih =>
    exact ih (step g st op)
      (fun o ho => hops o (List.mem_cons_of_mem _ ho))
      (sessionInv_step g st op (hops op (List.mem_cons_self _ _)) h)

/-- Claim C1: the spec requires that after the session is closed by scoped
exit (or by `close()`) a subsequent `generate_text` detect the closed/absent
state, create a fresh session and succeed, never reusing a closed session.
The code violates this on the scoped-exit path: `__aexit__` closes the
session but leaves `self._session` set, so the truthiness check of line 76
skips re-creation, `post` on the closed session raises `RuntimeError`, and —
for every network behaviour, query and data — the call returns the fallback
string, no request is sent, and no fresh session is created (the state is
unchanged). -/
theorem scoped_exit_reuses_closed_session (g : TextGenerator) (q : String)
    (rd : RData) (env : HttpResult) :
    GenState.initial.aenter.aexit.session = some 0
    ∧ (0 : Nat) ∈ GenState.initial.aenter.aexit.closed
    ∧ (g.generate_text GenState.initial.aenter.aexit q rd env).ret = JValue.str fallback
    ∧ (g.generate_text GenState.initial.aenter.aexit q rd env).st
        = GenState.initial.aenter.aexit
    ∧ (g.generate_text GenState.initial.aenter.aexit q rd env).sent = none := by
  refine ⟨rfl, by decide, rfl, rfl, rfl⟩

/-- Claim C2, counterexample: with a 200 response whose
`choices[0].message.content` is the JSON number 42, `generate_text` returns
that number — a non-string — so "always returns a string" fails as stated. -/
theorem generate_text_nonstring_return_counterexample :
    (gW.generate_text GenState.initial "q" (RData.ofString "")
        (HttpResult.response 200 "ok" (Except.ok json42))).ret = JValue.num 42
    ∧ JValue.isStr (gW.generate_text GenState.initial "q" (RData.ofString "")
        (HttpResult.response 200 "ok" (Except.ok json42))).ret = false :=
  ⟨rfl, rfl⟩

/-- Claim C2 (amended): `generate_text` is total, and every call ends in one
of exactly two ways: either it is a failure — the closed-session raise, a
transmission exception, a non-200 status, a JSON parse error, or an
extraction error — in which case the return value is the fixed fallback
string (a string) and an error entry has been logged; or the response was a
200 whose body yielded `choices[0].message.content`, in which case that
extracted value is returned as-is — a Python string in every case except
when that content field is itself a non-string JSON value. -/
theorem generate_text_string_unless_nonstring_content (g : TextGenerator)
    (st : GenState) (q : String) (rd : RData) (env : HttpResult) :
    ((g.generate_text st q rd env).ret = JValue.str fallback
      ∧ ∃ m, LogEntry.error m ∈ (g.generate_text st q rd env).logs)
    ∨ ∃ text j, env = HttpResult.response 200 text (Except.ok j)
        ∧ getContent j = Except.ok (g.generate_text st q rd env).ret := by
  simp only [TextGenerator.generate_text]
  split
  · exact Or.inl ⟨rfl, genErrorMsg "Session is closed", by simp⟩
  · split
    · rename_i e
      exact Or.inl ⟨rfl, genErrorMsg e, by simp⟩
    · rename_i status text json
      split
      · exact Or.inl ⟨rfl, apiErrorMsg status text, by simp⟩
      · rename_i h200
        split
        · rename_i e
          exact Or.inl ⟨rfl, genErrorMsg e, by simp⟩
        · rename_i j
          split
          · rename_i e heq
            exact Or.inl ⟨rfl, genErrorMsg e, by simp⟩
          · rename_i v heq
            right
            refine ⟨text, j, ?_, ?_⟩
            · rw [not_ne_iff.mp h200]
            · exact heq

/-- Claim C3: when the referenced session is not closed and the endpoint
answers 200 with a JSON body containing `choices[0].message.content`, the
content string is returned verbatim. -/
theorem generate_text_200_returns_content (g : TextGenerator) (st : GenState)
    (q : String) (rd : RData) (text : String) (j : JValue) (c : String)
    (hs : (lazySession st).1 ∉ (lazySession st).2.closed)
    (hc : getContent j = Except.ok (JValue.str c)) :
    (g.generate_text st q rd (HttpResult.response 200 text (Except.ok j))).ret
      = JValue.str c := by
  simp only [TextGenerator.generate_text]
  rw [if_neg hs]
  simp [hc]

/-- Witness for C3: the spec's own example — a mocked 200 response with body
`\x7b"choices":[\x7b"message":\x7b"content":"Hello"\x7d\x7d]\x7d` makes
`generate_text("price?", "\x7b\x7d")` return exactly `"Hello"`. -/
theorem generate_text_200_returns_content_witness :
    ((lazySession GenState.initial).1 ∉ (lazySession GenState.initial).2.closed)
    ∧ getContent helloJson = Except.ok (JValue.str "Hello")
    ∧ (gW.generate_text GenState.initial "price?" (RData.ofString "\x7b\x7d")
        (HttpResult.response 200 "" (Except.ok helloJson))).ret
        = JValue.str "Hello" :=
  ⟨by decide, rfl,
   generate_text_200_returns_content gW GenState.initial "price?"
     (RData.ofString "\x7b\x7d") "" helloJson "Hello" (by decide) rfl⟩

/-- Claim C4: a non-200 response (with an open session) yields the fixed
fallback string and an error log entry whose message contains the status code
and the response body; the exception path returns the very same fallback
string, so the two failure modes are indistinguishable from the return
value. -/
theorem generate_text_non200_fallback (g : TextGenerator) (st : GenState)
    (q : String) (rd : RData) (status : Nat) (text : String)
    (json : Except String JValue)
    (hs : (lazySession st).1 ∉ (lazySession st).2.closed)
    (h200 : status ≠ 200) :
    (g.generate_text st q rd (HttpResult.response status text json)).ret
      = JValue.str fallback
    ∧ LogEntry.error (apiErrorMsg status text)
        ∈ (g.generate_text st q rd (HttpResult.response status text json)).logs
    ∧ (toString status).data <:+: (apiErrorMsg status text).data
    ∧ text.data <:+ (apiErrorMsg status text).data
    ∧ ∀ e, (g.generate_text st q rd (HttpResult.raise e)).ret = JValue.str fallback := by
  refine ⟨?_, ?_, ?_, ?_, ?_⟩
  · simp only [TextGenerator.generate_text]
    rw [if_neg hs]
    simp [h200]
  · simp only [TextGenerator.generate_text]
    rw [if_neg hs]
    simp [h200]
  · exact ⟨"Ошибка API: ".data, (", " ++ text).data,
      by simp [apiErrorMsg, String.data_append]⟩
  · exact ⟨(("Ошибка API: " ++ toString status) ++ ", ").data,
      by simp [apiErrorMsg, String.data_append]⟩
  · intro e
    simp only [TextGenerator.generate_text]
    rw [if_neg hs]

/-- Witness for C4: the spec's own example — a mocked 500 response produces
the fallback string and the corresponding error log entry. -/
theorem generate_text_non200_fallback_witness :
    ((lazySession GenState.initial).1 ∉ (lazySession GenState.initial).2.closed)
    ∧ (500 : Nat) ≠ 200
    ∧ (gW.generate_text GenState.initial "price?" (RData.ofString "d")
          (HttpResult.response 500 "Internal Server Error" (Except.error "no json"))).ret
        = JValue.str fallback
    ∧ LogEntry.error (apiErrorMsg 500 "Internal Server Error")
        ∈ (gW.generate_text GenState.initial "price?" (RData.ofString "d")
            (HttpResult.response 500 "Internal Server Error" (Except.error "no json"))).logs
    ∧ (toString (500 : Nat)).data <:+: (apiErrorMsg 500 "Internal Server Error").data
    ∧ ("Internal Server Error" : String).data <:+ (apiErrorMsg 500 "Internal Server Error").data
    ∧ (gW.generate_text GenState.initial "price?" (RData.ofString "d")
        (HttpResult.raise "Cannot connect to host")).ret = JValue.str fallback := by
  have T := generate_text_non200_fallback gW GenState.initial "price?" (RData.ofString "d")
    500 "Internal Server Error" (Except.error "no json") (by decide) (by decide)
  exact ⟨by decide, by decide, T.1, T.2.1, T.2.2.1, T.2.2.2.1,
    T.2.2.2.2 "Cannot connect to host"⟩

/-- Claim C5, counterexample: entering the scope twice in a row leaves two
live sessions attributable to the instance — `__aenter__` overwrites the
reference with a fresh session without closing the previous one, so "at most
one live session, and re-entering the scope never leaves two open sessions"
fails as stated. -/
theorem reentry_leaks_session_counterexample :
    (run gW GenState.initial [Op.aenter, Op.aenter]).openCount = 2
    ∧ ¬((run gW GenState.initial [Op.aenter, Op.aenter]).openCount ≤ 1) :=
  ⟨by decide, by decide⟩

/-- Claim C5 (amended): at most one live session per instance holds on the
lazy path and on the single-entry scoped path: along every operation sequence
that never (re-)enters the scope — starting from a fresh instance, or from one
that entered the scope once at the start — the number of live sessions never
exceeds one (in particular `generate_text` never creates a second session
while one is referenced).  Entering the scope while a session already exists,
however, replaces the reference without closing that session and leaks it
(see the counterexample). -/
theorem single_live_session_without_reentry (g : TextGenerator) (ops : List Op)
    (h : Op.aenter ∉ ops) :
    (run g GenState.initial ops).openCount ≤ 1
    ∧ (run g GenState.initial.aenter ops).openCount ≤ 1 := by
  have hops : ∀ op ∈ ops, op ≠ Op.aenter := fun op hop he => h (he ▸ hop)
  exact ⟨sessionInv_openCount (sessionInv_run g _ ops hops sessionInv_initial),
         sessionInv_openCount (sessionInv_run g _ ops hops sessionInv_aenter_initial)⟩

/-- Witness for C5 (amended): a concrete sequence — request, close, request —
keeps the live-session count at one or below, lazily and after one scope
entry. -/
theorem single_live_session_without_reentry_witness :
    (Op.aenter ∉ opsW)
    ∧ ((run gW GenState.initial opsW).openCount ≤ 1
       ∧ (run gW GenState.initial.aenter opsW).openCount ≤ 1) :=
  ⟨by simp [opsW], single_live_session_without_reentry gW opsW (by simp [opsW])⟩

/-- Claim C6: a non-string `result_data` is serialized with
`json.dumps(..., ensure_ascii=False)` — whose escaper leaves every non-ASCII
character literal — and the system message of the outgoing payload is the
fixed prompt with exactly that serialization as trailing text; whenever
`generate_text` hands a payload to the HTTP layer at all, it is the payload
built from that serialization. -/
theorem nonstring_data_serialized_trailing (g : TextGenerator) (st : GenState)
    (q : String) (v : JValue) (env : HttpResult)
    (_hv : JValue.isStr v = false) :
    normalize (RData.ofValue v) = dumps v
    ∧ systemContent (g.prepare_payload q (normalize (RData.ofValue v)))
        = Except.ok (JValue.str (get_system_prompt (dumps v)))
    ∧ (∃ pre, get_system_prompt (dumps v) = pre ++ dumps v)
    ∧ ((g.generate_text st q (RData.ofValue v) env).sent = none
       ∨ (g.generate_text st q (RData.ofValue v) env).sent
           = some (g.prepare_payload q (dumps v)))
    ∧ ∀ c : Char, 128 ≤ c.val.toNat → escChar c = String.singleton c := by
  refine ⟨rfl, rfl, ⟨_, get_system_prompt_trailing (dumps v)⟩, ?_,
    fun c hc => escChar_nonascii c hc⟩
  exact generate_text_sent g st q (RData.ofValue v) env

/-- Witness for C6: the structured value `\x7b"Цена": 10\x7d` (with a
non-ASCII key). -/
theorem nonstring_data_serialized_trailing_witness :
    JValue.isStr (JValue.obj [("Цена", JValue.num 10)]) = false
    ∧ (normalize (RData.ofValue (JValue.obj [("Цена", JValue.num 10)]))
        = dumps (JValue.obj [("Цена", JValue.num 10)])
      ∧ systemContent (gW.prepare_payload "q"
          (normalize (RData.ofValue (JValue.obj [("Цена", JValue.num 10)]))))
          = Except.ok (JValue.str
              (get_system_prompt (dumps (JValue.obj [("Цена", JValue.num 10)]))))
      ∧ (∃ pre, get_system_prompt (dumps (JValue.obj [("Цена", JValue.num 10)]))
            = pre ++ dumps (JValue.obj [("Цена", JValue.num 10)]))
      ∧ ((gW.generate_text GenState.initial "q"
            (RData.ofValue (JValue.obj [("Цена", JValue.num 10)]))
            (HttpResult.raise "conn")).sent = none
         ∨ (gW.generate_text GenState.initial "q"
            (RData.ofValue (JValue.obj [("Цена", JValue.num 10)]))
            (HttpResult.raise "conn")).sent
             = some (gW.prepare_payload "q"
                 (dumps (JValue.obj [("Цена", JValue.num 10)]))))
      ∧ 128 ≤ ('Ц').val.toNat
      ∧ escChar 'Ц' = String.singleton 'Ц') := by
  have T := nonstring_data_serialized_trailing gW GenState.initial "q"
    (JValue.obj [("Цена", JValue.num 10)]) (HttpResult.raise "conn") rfl
  exact ⟨rfl, T.1, T.2.1, T.2.2.1, T.2.2.2.1, by decide, T.2.2.2.2 ('Ц') (by decide)⟩

/-- Claim C7: the outgoing payload has exactly the keys `model` (the
configured model string) and `messages`, and `messages` is the ordered pair
of a system message — the fixed template with the serialized data as trailing
text — and a user message framing the query as `Запрос: <query>.`. -/
theorem payload_shape (g : TextGenerator) (q data : String) :
    jKeys (g.prepare_payload q data) = ["model", "messages"]
    ∧ jGet (g.prepare_payload q data) "model" = Except.ok (JValue.str g.model)
    ∧ ∃ m1 m2,
        jGet (g.prepare_payload q data) "messages" = Except.ok (JValue.arr [m1, m2])
        ∧ jKeys m1 = ["role", "content"]
        ∧ jGet m1 "role" = Except.ok (JValue.str "system")
        ∧ jGet m1 "content" = Except.ok (JValue.str (get_system_prompt data))
        ∧ (∃ pre, get_system_prompt data = pre ++ data)
        ∧ jKeys m2 = ["role", "content"]
        ∧ jGet m2 "role" = Except.ok (JValue.str "user")
        ∧ jGet m2 "content" = Except.ok (JValue.str ("Запрос: " ++ q ++ ".")) := by
  refine ⟨rfl, rfl,
    JValue.obj [("role", JValue.str "system"),
                ("content", JValue.str (get_system_prompt data))],
    JValue.obj [("role", JValue.str "user"),
                ("content", JValue.str ("Запрос: " ++ q ++ "."))],
    rfl, rfl, rfl, rfl, ⟨_, get_system_prompt_trailing data⟩, rfl, rfl, rfl⟩

/-- Claim C8: when the session exists and is open, a `generate_text` call —
whatever the network does, which covers both the non-200 branch and every
caught-exception branch — leaves the session state exactly as it was: the
handle still refers to the same session and that session is still open. -/
theorem failure_preserves_session (g : TextGenerator) (st : GenState)
    (q : String) (rd : RData) (env : HttpResult) (s : Nat)
    (hs : st.session = some s) (hopen : s ∉ st.closed) :
    (g.generate_text st q rd env).st = st
    ∧ (g.generate_text st q rd env).st.session = some s
    ∧ s ∉ (g.generate_text st q rd env).st.closed := by
  have h1 : (g.generate_text st q rd env).st = st := by
    rw [generate_text_st, lazySession_of_some hs]
  exact ⟨h1, by rw [h1]; exact hs, by rw [h1]; exact hopen⟩

/-- Witness for C8: a 500 response on an instance whose scope was entered
(session 0 open) leaves session 0 referenced and open. -/
theorem failure_preserves_session_witness :
    GenState.initial.aenter.session = some 0
    ∧ (0 : Nat) ∉ GenState.initial.aenter.closed
    ∧ ((gW.generate_text GenState.initial.aenter "q" (RData.ofString "d")
          (HttpResult.response 500 "boom" (Except.error "no json"))).st
        = GenState.initial.aenter
      ∧ (gW.generate_text GenState.initial.aenter "q" (RData.ofString "d")
          (HttpResult.response 500 "boom" (Except.error "no json"))).st.session = some 0
      ∧ (0 : Nat) ∉ (gW.generate_text GenState.initial.aenter "q" (RData.ofString "d")
          (HttpResult.response 500 "boom" (Except.error "no json"))).st.closed) :=
  ⟨rfl, by decide,
   failure_preserves_session gW GenState.initial.aenter "q" (RData.ofString "d")
     (HttpResult.response 500 "boom" (Except.error "no json")) 0 rfl (by decide)⟩

/-- Claim C9: `close()` is idempotent and total — with a session it closes it
and clears the reference, without one it does nothing, calling it twice
equals calling it once, and (being a total function of the state) it never
raises. -/
theorem close_idempotent_total (st : GenState) (n s : Nat) (c : List Nat) :
    GenState.close (GenState.close st) = GenState.close st
    ∧ (GenState.close st).session = none
    ∧ GenState.close ⟨some s, n, c⟩ = ⟨none, n, s :: c⟩
    ∧ GenState.close ⟨none, n, c⟩ = ⟨none, n, c⟩ := by
  refine ⟨?_, ?_, rfl, rfl⟩
  · rcases st with ⟨sess, nid, cl⟩
    cases sess <;> rfl
  · rcases st with ⟨sess, nid, cl⟩
    cases sess <;> rfl

/-- Claim C10: a `result_data` that is already a string bypasses
serialization entirely — `normalize` is the identity on strings, no JSON
validation or re-encoding happens — and the system message of the payload is
the fixed prompt with exactly that string (valid JSON or not, empty or not)
as trailing text. -/
theorem string_data_verbatim_trailing (g : TextGenerator) (q s : String) :
    normalize (RData.ofString s) = s
    ∧ systemContent (g.prepare_payload q (normalize (RData.ofString s)))
        = Except.ok (JValue.str (get_system_prompt s))
    ∧ get_system_prompt s
        = (systemPromptTemplate ++ " Вот данные для анализа (в формате JSON): ") ++ s
    ∧ (∃ pre, get_system_prompt s = pre ++ s) :=
  ⟨rfl, rfl, get_system_prompt_trailing s, ⟨_, get_system_prompt_trailing s⟩⟩

end AssistentBot
